import Mathlib

/-!
Shallow embedding of the Study-Buddy-RAG core pipeline
(document chunking, difficulty scoring, quiz generation/evaluation,
RAG-engine orchestration) and proofs of the specification claims.

Python strings are modelled as `List Char`; machine floats are modelled
as `ℚ` (all arithmetic in the sources stays on small exact values);
fallible or external calls (vector search, NLTK sentence tokenization,
`random.choice` / `random.shuffle`) are passed in as explicit parameters.
-/

namespace StudyBuddy

/-! ### Python string primitives on `List Char` -/

/-- ASCII whitespace recognized by Python's `str.split()` / `str.strip()`. -/
def pyWhitespace (c : Char) : Bool :=
  c = ' ' || c = '\t' || c = '\n' || c = '\x0d' || c = '\x0b' || c = '\x0c'

/-- A character of Python's regex class `\w` (ASCII fragment). -/
def isWordChar (c : Char) : Bool :=
  c.isAlphanum || c = '_'

/-- Python `str.lower()` (ASCII). -/
def toLowerChars (l : List Char) : List Char :=
  l.map Char.toLower

/-- Python `str.upper()` (ASCII). -/
def toUpperChars (l : List Char) : List Char :=
  l.map Char.toUpper

/-- Helper for `splitWS`: `acc` holds the current word reversed. -/
def splitWSAux : List Char → List Char → List (List Char)
  | acc, [] => if acc = [] then [] else [acc.reverse]
  | acc, c :: rest =>
    if pyWhitespace c then
      if acc = [] then splitWSAux [] rest else acc.reverse :: splitWSAux [] rest
    else splitWSAux (c :: acc) rest

/-- Python `str.split()` with no argument: split on whitespace runs,
dropping empty pieces. -/
def splitWS (l : List Char) : List (List Char) :=
  splitWSAux [] l

/-- Helper for `wordRuns`: `acc` holds the current run reversed. -/
def wordRunsAux : List Char → List Char → List (List Char)
  | acc, [] => if acc = [] then [] else [acc.reverse]
  | acc, c :: rest =>
    if isWordChar c then wordRunsAux (c :: acc) rest
    else if acc = [] then wordRunsAux [] rest else acc.reverse :: wordRunsAux [] rest

/-- The maximal `\w+` runs of a string: Python `re.findall(r'\b\w+\b', s)`. -/
def wordRuns (l : List Char) : List (List Char) :=
  wordRunsAux [] l

/-- Python `str.split(sep)` for a one-character separator: keeps empty pieces. -/
def splitOnChar (sep : Char) : List Char → List (List Char)
  | [] => [[]]
  | c :: rest =>
    if c = sep then [] :: splitOnChar sep rest
    else
      match splitOnChar sep rest with
      | [] => [[c]]
      | w :: ws => (c :: w) :: ws

/-- Python `str.strip()`: drop leading and trailing whitespace. -/
def stripChars (l : List Char) : List Char :=
  ((l.dropWhile pyWhitespace).reverse.dropWhile pyWhitespace).reverse

/-- Python `' '.join(words)`. -/
def joinSp (ws : List (List Char)) : List Char :=
  List.intercalate [' '] ws

/-- Python `pat in s` (substring containment). -/
def containsSub (pat : List Char) : List Char → Bool
  | [] => List.isPrefixOf pat []
  | c :: rest => List.isPrefixOf pat (c :: rest) || containsSub pat rest

/-- Python `s.replace(pat, new, 1)`: replace the first occurrence only. -/
def replaceFirst : List Char → List Char → List Char → List Char
  | [], _, _ => []
  | c :: rest, pat, new =>
    if List.isPrefixOf pat (c :: rest) then new ++ (c :: rest).drop pat.length
    else c :: replaceFirst rest pat new

/-- Fuel-indexed worker for `replaceAll`; every step consumes at least one
character, so fuel `s.length` is enough for a nonempty pattern. -/
def replaceAllFuel (pat new : List Char) : Nat → List Char → List Char
  | 0, s => s
  | Nat.succ fuel, s =>
    match s with
    | [] => []
    | c :: rest =>
      if pat ≠ [] ∧ List.isPrefixOf pat s then
        new ++ replaceAllFuel pat new fuel (s.drop pat.length)
      else c :: replaceAllFuel pat new fuel rest

/-- Python `s.replace(pat, new)` (all occurrences), for a nonempty pattern. -/
def replaceAll (s pat new : List Char) : List Char :=
  replaceAllFuel pat new s.length s

/-- Python `range(start, stop, step)` for a positive step. -/
def rangeStep (start stop step : Nat) : List Nat :=
  if _h : start < stop ∧ 0 < step then
    start :: rangeStep (start + step) stop step
  else []
termination_by stop - start
decreasing_by omega

/-! ### DocumentProcessor._create_chunks (src/document_processor.py) -/

/-- `DocumentProcessor._create_chunks`: split the text on whitespace, then
take windows of `chunk_size` words advancing by `chunk_size - chunk_overlap`,
joining each window with single spaces. -/
def create_chunks (chunk_size chunk_overlap : Nat) (text : List Char) : List (List Char) :=
  (rangeStep 0 (splitWS text).length (chunk_size - chunk_overlap)).map
    (fun i => joinSp (((splitWS text).drop i).take chunk_size))

theorem rangeStep_eq_map (step : Nat) (hs : 0 < step) :
    ∀ d stop start, stop - start = d →
      rangeStep start stop step =
        (List.range ((stop - start + step - 1) / step)).map (fun k => start + k * step) := by
  intro d
  induction d using Nat.strong_induction_on with
  | _ d ih =>
    intro stop start hd
    rw [rangeStep]
    by_cases h : start < stop
    · rw [dif_pos ⟨h, hs⟩]
      rw [ih (stop - (start + step)) (by omega) stop (start + step) rfl]
      have hN : (stop - start + step - 1) / step = (stop - (start + step) + step - 1) / step + 1 := by
        by_cases hle : start + step ≤ stop
        · have h1 : stop - (start + step) + step - 1 = stop - start - 1 := by omega
          have h2 : stop - start + step - 1 = (stop - start - 1) + step := by omega
          rw [h1, h2, Nat.add_div_right _ hs]
        · have h1 : (stop - (start + step) + step - 1) / step = 0 :=
            Nat.div_eq_of_lt (by omega)
          have h2 : (stop - start + step - 1) / step = 1 := by
            rw [Nat.div_eq_sub_div hs (by omega), Nat.div_eq_of_lt (by omega)]
          rw [h1, h2]
      rw [hN, List.range_succ_eq_map]
      simp only [List.map_cons, List.map_map]
      congr 1
      · omega
      · apply List.map_congr_left
        intro k _
        simp only [Function.comp_apply, Nat.succ_eq_add_one]
        ring
    · rw [dif_neg (by omega)]
      have h0 : stop - start = 0 := by omega
      rw [h0]
      have h1 : (0 + step - 1) / step = 0 := Nat.div_eq_of_lt (by omega)
      rw [h1]
      simp

/-- C1: for every text of W whitespace-split words and every configuration
with chunk size S and overlap O satisfying O < S, `_create_chunks` returns
exactly ceil(W/(S-O)) chunks, and the i-th chunk is the window of up to S
consecutive words starting at word index i*(S-O). -/
theorem create_chunks_spec (text : List Char) (S O : Nat) (hOS : O < S) :
    (create_chunks S O text).length =
      ((splitWS text).length + (S - O) - 1) / (S - O) ∧
    ∀ i, (hi : i < (create_chunks S O text).length) →
      (create_chunks S O text)[i] =
        joinSp (((splitWS text).drop (i * (S - O))).take S) := by
  have hs : 0 < S - O := by omega
  have hrw := rangeStep_eq_map (S - O) hs ((splitWS text).length - 0)
    ((splitWS text).length) 0 rfl
  unfold create_chunks
  rw [hrw]
  constructor
  · simp
  · intro i hi
    simp only [List.getElem_map, List.getElem_range, Nat.zero_add]

/-- Closed instance of `create_chunks_spec`: text "a b c d e" (5 words),
size 3, overlap 1. -/
theorem create_chunks_spec_witness :
    (create_chunks 3 1 "a b c d e".data).length =
      ((splitWS "a b c d e".data).length + (3 - 1) - 1) / (3 - 1) :=
  (create_chunks_spec "a b c d e".data 3 1 (by decide)).1

/-! ### DifficultyAssessor (src/difficulty_assessor.py) -/

/-- The fixed ten-term technical vocabulary (`self.complex_words`). -/
def complex_words_set : List (List Char) :=
  ["analyze".data, "synthesize".data, "evaluate".data, "hypothesis".data,
   "methodology".data, "paradigm".data, "phenomenon".data, "conceptual".data,
   "theoretical".data, "empirical".data]

/-- The vowels of `_count_syllables` (y counts as a vowel). -/
def vowelChars : List Char := ['a', 'e', 'i', 'o', 'u', 'y']

/-- The vowel-group counting loop of `_count_syllables`; `prev` is the
`prev_was_vowel` flag. -/
def vowelGroups : List Char → Bool → Nat
  | [], _ => 0
  | c :: rest, prev =>
    if c ∈ vowelChars then
      if prev then vowelGroups rest true else 1 + vowelGroups rest true
    else vowelGroups rest false

/-- `DifficultyAssessor._count_syllables`: count vowel groups of the
lowercased word, decrement by one when the word ends in 'e', and bump a
zero count to 1 (Python `int`, hence `Int`). -/
def count_syllables (word : List Char) : Int :=
  let base : Int := vowelGroups (toLowerChars word) false
  let adjusted : Int := if word.getLast? = some 'e' then base - 1 else base
  if adjusted = 0 then 1 else adjusted

/-- The four metrics of `_calculate_metrics`; the two ratios the source
multiplies by 100 are stored already multiplied. -/
structure TextMetrics where
  avg_sentence_length : ℚ
  complex_word_ratio : ℚ
  syllable_density : ℚ
  technical_term_ratio : ℚ

/-- The word list of `_calculate_metrics`:
`re.findall(r'\b\w+\b', text.lower())`. -/
def metricWords (text : List Char) : List (List Char) :=
  wordRuns (toLowerChars text)

/-- `DifficultyAssessor._calculate_metrics`: the sentence list produced by
NLTK `sent_tokenize` (an external collaborator) is passed in as a
parameter. -/
def calculate_metrics (sentences : List (List Char)) (text : List Char) : TextMetrics where
  avg_sentence_length :=
    if sentences = [] then 0
    else ((metricWords text).length : ℚ) / (sentences.length : ℚ)
  complex_word_ratio :=
    (if metricWords text = [] then 0
     else (((metricWords text).filter (fun w => 3 ≤ count_syllables w)).length : ℚ) /
       ((metricWords text).length : ℚ)) * 100
  syllable_density :=
    if metricWords text = [] then 0
    else ((((metricWords text).map count_syllables).sum : Int) : ℚ) /
      ((metricWords text).length : ℚ)
  technical_term_ratio :=
    (if metricWords text = [] then 0
     else (((metricWords text).filter (fun w => w ∈ complex_words_set)).length : ℚ) /
       ((metricWords text).length : ℚ)) * 100

/-- `DifficultyAssessor.assess_text_difficulty`: the weighted sum of the
four metrics, divided by 100 and clamped above at 1. -/
def assess_text_difficulty (sentences : List (List Char)) (text : List Char) : ℚ :=
  let m := calculate_metrics sentences text
  min 1 ((m.avg_sentence_length * 0.2 + m.complex_word_ratio * 0.3 +
    m.syllable_density * 0.3 + m.technical_term_ratio * 0.2) / 100)

theorem vowelGroups_pos (l : List Char) (c : Char) (hc : c ∈ l)
    (hv : c ∈ vowelChars) : 1 ≤ vowelGroups l false := by
  induction l with
  | nil => cases hc
  | cons x rest ih =>
    by_cases hx : x ∈ vowelChars
    · simp [vowelGroups, hx]
    · have hcr : c ∈ rest := by
        cases List.mem_cons.mp hc with
        | inl h => exact absurd (h ▸ hv) hx
        | inr h => exact h
      simpa [vowelGroups, hx] using ih hcr

theorem count_syllables_pos (word : List Char) : 1 ≤ count_syllables word := by
  have hb : (0 : Int) ≤ (vowelGroups (toLowerChars word) false : Int) :=
    Int.ofNat_nonneg _
  unfold count_syllables
  by_cases he : word.getLast? = some 'e'
  · have hmem : 'e' ∈ word.getLast? := by rw [he]; rfl
    obtain ⟨hne, hx⟩ := List.mem_getLast?_eq_getLast hmem
    have h1 : 'e' ∈ word := hx ▸ List.getLast_mem hne
    have h2 : 'e' ∈ toLowerChars word :=
      List.mem_map.mpr ⟨'e', h1, by decide⟩
    have h3 := vowelGroups_pos (toLowerChars word) 'e' h2 (by decide)
    simp only [he, if_pos]
    split <;> omega
  · simp only [he, if_neg, if_false]
    split <;> omega

/-- C2: `assess_text_difficulty` returns the weighted sum
0.2*avg_sentence_length + 0.3*complex_word_ratio + 0.3*syllable_density +
0.2*technical_term_ratio divided by 100 and clamped above at 1; all four
metrics are non-negative, and the result always lies in [0, 1]. -/
theorem assess_text_difficulty_spec (sentences : List (List Char)) (text : List Char) :
    assess_text_difficulty sentences text =
      min 1 (((calculate_metrics sentences text).avg_sentence_length * 0.2 +
        (calculate_metrics sentences text).complex_word_ratio * 0.3 +
        (calculate_metrics sentences text).syllable_density * 0.3 +
        (calculate_metrics sentences text).technical_term_ratio * 0.2) / 100) ∧
    0 ≤ (calculate_metrics sentences text).avg_sentence_length ∧
    0 ≤ (calculate_metrics sentences text).complex_word_ratio ∧
    0 ≤ (calculate_metrics sentences text).syllable_density ∧
    0 ≤ (calculate_metrics sentences text).technical_term_ratio ∧
    0 ≤ assess_text_difficulty sentences text ∧
    assess_text_difficulty sentences text ≤ 1 := by
  have hsum : (0 : Int) ≤ ((metricWords text).map count_syllables).sum := by
    apply List.sum_nonneg
    intro x hx
    obtain ⟨w, _, rfl⟩ := List.mem_map.mp hx
    exact le_trans (by norm_num) (count_syllables_pos w)
  have hasl : 0 ≤ (calculate_metrics sentences text).avg_sentence_length := by
    simp only [calculate_metrics]
    split
    · norm_num
    · positivity
  have hcwr : 0 ≤ (calculate_metrics sentences text).complex_word_ratio := by
    simp only [calculate_metrics]
    split
    · norm_num
    · positivity
  have hsd : 0 ≤ (calculate_metrics sentences text).syllable_density := by
    simp only [calculate_metrics]
    split
    · norm_num
    · apply div_nonneg _ (by positivity)
      exact_mod_cast hsum
  have httr : 0 ≤ (calculate_metrics sentences text).technical_term_ratio := by
    simp only [calculate_metrics]
    split
    · norm_num
    · positivity
  have hnn : 0 ≤ assess_text_difficulty sentences text := by
    unfold assess_text_difficulty
    apply le_min (by norm_num)
    apply div_nonneg _ (by norm_num)
    have h1 := mul_nonneg hasl (by norm_num : (0:ℚ) ≤ 0.2)
    have h2 := mul_nonneg hcwr (by norm_num : (0:ℚ) ≤ 0.3)
    have h3 := mul_nonneg hsd (by norm_num : (0:ℚ) ≤ 0.3)
    have h4 := mul_nonneg httr (by norm_num : (0:ℚ) ≤ 0.2)
    linarith
  exact ⟨rfl, hasl, hcwr, hsd, httr, hnn, min_le_left _ _⟩

/-! ### QuizGenerator (src/quiz_generator.py) -/

/-- The candidate sentence list shared by all three generators: split the
content on '.', strip each piece, keep the pieces longer than 20
characters. -/
def candidateSentences (content : List Char) : List (List Char) :=
  ((splitOnChar '.' content).map stripChars).filter (fun s => 20 < s.length)

/-- The ordered substitution list of `_modify_sentence_for_false`. -/
def modifications : List (List Char × List Char) :=
  [("is".data, "is not".data), ("was".data, "was not".data),
   ("can".data, "cannot".data), ("will".data, "will not".data),
   ("should".data, "should not".data)]

/-- `QuizGenerator._modify_sentence_for_false`: the first pair whose left
side occurs in the lowercased sentence is substituted (first occurrence
only) into the lowercased sentence; the sentence is returned unchanged when
no pair occurs. -/
def modify_sentence_for_false (sentence : List Char) : List Char :=
  match modifications.find? (fun p => containsSub p.1 (toLowerChars sentence)) with
  | some p => replaceFirst (toLowerChars sentence) p.1 p.2
  | none => sentence

/-- A quiz question: the three dict variants built by quiz_generator.py. -/
inductive Question where
  | mc (question : List Char) (options : List (List Char × List Char))
      (correct_answer : List Char)
  | tf (question : List Char) (correct_answer : List Char)
  | sa (question : List Char) (sample_answer : List Char)
deriving DecidableEq

/-- Option letter for index i: `chr(65 + i)`. -/
def letterOf (i : Nat) : List Char := [Char.ofNat (65 + i)]

/-- ASCII `[A-Z]`. -/
def isUpperAlpha (c : Char) : Bool := 'A' ≤ c && c ≤ 'Z'

/-- ASCII `[a-z]`. -/
def isLowerAlpha (c : Char) : Bool := 'a' ≤ c && c ≤ 'z'

/-- Whether a maximal word-character run is a match of
`\b[A-Z][a-z]+\b`. -/
def isCapWord : List Char → Bool
  | [] => false
  | c :: rest => isUpperAlpha c && !rest.isEmpty && rest.all isLowerAlpha

/-- `re.findall(r'\b[A-Z][a-z]+\b', sentence)`: both pattern ends are word
boundaries, so a match is exactly a maximal word-character run of the shape
`[A-Z][a-z]+`. -/
def findCapWords (sentence : List Char) : List (List Char) :=
  (wordRuns sentence).filter isCapWord

/-- The three fixed distractor strings of `_generate_multiple_choice`. -/
def dummy_options : List (List Char) :=
  ["Option A".data, "Option B".data, "Option C".data]

/-- Python `list.index`: position of the first occurrence (the source only
calls it on a list that contains the element). -/
def pyIndex (x : List Char) : List (List Char) → Nat
  | [] => 0
  | y :: rest => if y = x then 0 else pyIndex x rest + 1

theorem pyIndex_lt_length {x : List Char} :
    ∀ {l : List (List Char)}, x ∈ l → pyIndex x l < l.length := by
  intro l hx
  induction l with
  | nil => cases hx
  | cons y rest ih =>
    by_cases hyx : y = x
    · simp [pyIndex, hyx]
    · have hxr : x ∈ rest := by
        cases List.mem_cons.mp hx with
        | inl h => exact absurd h.symm hyx
        | inr h => exact h
      simp only [pyIndex, if_neg hyx, List.length_cons]
      exact Nat.succ_lt_succ (ih hxr)

theorem getElem_pyIndex {x : List Char} :
    ∀ {l : List (List Char)}, x ∈ l →
      ∀ hi : pyIndex x l < l.length, l[pyIndex x l] = x := by
  intro l hx
  induction l with
  | nil => cases hx
  | cons y rest ih =>
    intro hi
    by_cases hyx : y = x
    · simp [pyIndex, hyx]
    · have hxr : x ∈ rest := by
        cases List.mem_cons.mp hx with
        | inl h => exact absurd h.symm hyx
        | inr h => exact h
      have hi' : pyIndex x rest < rest.length := pyIndex_lt_length hxr
      simp only [pyIndex, if_neg hyx, List.getElem_cons_succ]
      exact ih hxr hi'

/-- `QuizGenerator._generate_multiple_choice`; `pick i words` models the
`random.choice(words)` call of iteration i, and `shuf i options` its
`random.shuffle(options)`. -/
def generate_multiple_choice (pick : Nat → List (List Char) → List Char)
    (shuf : Nat → List (List Char) → List (List Char))
    (content : List Char) (num_questions : Nat) : List Question :=
  (List.range (min num_questions (candidateSentences content).length)).filterMap
    (fun i =>
      let sentence := (candidateSentences content).getD i []
      let words := findCapWords sentence
      if words = [] then none
      else
        let key_term := pick i words
        let options := shuf i (key_term :: dummy_options)
        some (Question.mc
          ("Fill in the blank: ".data ++ replaceAll sentence key_term "____".data)
          (options.enum.map (fun p => (letterOf p.1, p.2)))
          (letterOf (pyIndex key_term options))))

/-- `QuizGenerator._generate_true_false`. -/
def generate_true_false (content : List Char) (num_questions : Nat) : List Question :=
  (List.range (min num_questions (candidateSentences content).length)).map
    (fun i =>
      let sentence := (candidateSentences content).getD i []
      if i % 2 = 0 then
        Question.tf ("True or False: ".data ++ sentence) "True".data
      else
        Question.tf ("True or False: ".data ++ modify_sentence_for_false sentence)
          "False".data)

/-- The fixed question starters of `_generate_short_answer`. -/
def question_starters : List (List Char) :=
  ["What is".data, "How does".data, "Why is".data, "When did".data,
   "Where is".data, "Who was".data, "Which".data, "Explain".data,
   "Describe".data, "Define".data]

/-- `QuizGenerator._generate_short_answer`; `pickStarter i starters` models
the `random.choice(question_starters)` call of iteration i. -/
def generate_short_answer (pickStarter : Nat → List (List Char) → List Char)
    (content : List Char) (num_questions : Nat) : List Question :=
  (List.range (min num_questions (candidateSentences content).length)).filterMap
    (fun i =>
      let sentence := (candidateSentences content).getD i []
      let starter := pickStarter i question_starters
      let words := splitWS sentence
      if 5 < words.length then
        some (Question.sa
          (starter ++ [' '] ++ toLowerChars (joinSp (words.take 3)) ++ ['?'])
          sentence)
      else none)

/-- `QuizGenerator._generate_mixed_quiz`; `shufQs` models the final
`random.shuffle(questions)`. -/
def generate_mixed_quiz (pick : Nat → List (List Char) → List Char)
    (shuf : Nat → List (List Char) → List (List Char))
    (pickStarter : Nat → List (List Char) → List Char)
    (shufQs : List Question → List Question)
    (content : List Char) (num_questions : Nat) : List Question :=
  let mc_count := num_questions / 3
  let tf_count := num_questions / 3
  let sa_count := num_questions - mc_count - tf_count
  shufQs (generate_multiple_choice pick shuf content mc_count ++
    (generate_true_false content tf_count ++
      generate_short_answer pickStarter content sa_count))

/-- Result of `generate_quiz`: the error dict or the quiz dict. -/
inductive QuizOutcome where
  | error (msg : List Char)
  | quiz (topic : List Char) (num_questions : Nat) (questions : List Question)
      (quiz_type : List Char)
deriving DecidableEq

/-- `QuizGenerator.generate_quiz`; `docs` is the retrieved
`search_results['documents'][0]` of the top-10 search against the external
vector store. -/
def generate_quiz (pick : Nat → List (List Char) → List Char)
    (shuf : Nat → List (List Char) → List (List Char))
    (pickStarter : Nat → List (List Char) → List Char)
    (shufQs : List Question → List Question)
    (docs : List (List Char)) (topic : List Char) (num_questions : Nat)
    (quiz_type : List Char) : QuizOutcome :=
  if docs = [] then QuizOutcome.error "No content found for this topic".data
  else
    let content := joinSp docs
    let questions :=
      if quiz_type = "multiple_choice".data then
        generate_multiple_choice pick shuf content num_questions
      else if quiz_type = "true_false".data then
        generate_true_false content num_questions
      else if quiz_type = "short_answer".data then
        generate_short_answer pickStarter content num_questions
      else
        generate_mixed_quiz pick shuf pickStarter shufQs content num_questions
    QuizOutcome.quiz topic questions.length questions quiz_type

/-- The word set of a lowercased split answer (Python `set(...)`). -/
def answerWordSet (answer : List Char) : Finset (List Char) :=
  (splitWS (toLowerChars answer)).toFinset

/-- The keyword set of `_evaluate_short_answer`: reference words longer
than 3 characters. -/
def keyWords (sample_answer : List Char) : Finset (List Char) :=
  (answerWordSet sample_answer).filter (fun w => 3 < w.length)

/-- `QuizGenerator._evaluate_short_answer`: correct iff the user word set
contains at least 30% of the keyword set (the float threshold 0.3 as the
exact rational 3/10). -/
def evaluate_short_answer (user_answer sample_answer : List Char) : Bool :=
  decide (((keyWords sample_answer).card : ℚ) * 0.3 ≤
    ((answerWordSet user_answer ∩ keyWords sample_answer).card : ℚ))

/-- The per-question correctness test inlined in `evaluate_quiz`'s loop. -/
def question_correct (q : Question) (user_answer : List Char) : Bool :=
  match q with
  | .mc _ _ correct => decide (toUpperChars user_answer = toUpperChars correct)
  | .tf _ correct => decide (toUpperChars user_answer = toUpperChars correct)
  | .sa _ sample => evaluate_short_answer user_answer sample

/-- The prompt text of a question dict. -/
def question_prompt : Question → List Char
  | .mc q _ _ => q
  | .tf q _ => q
  | .sa q _ => q

/-- `question.get('correct_answer', question.get('sample_answer', ''))`. -/
def question_reference : Question → List Char
  | .mc _ _ c => c
  | .tf _ c => c
  | .sa _ s => s

/-- One entry of the `results` list of `evaluate_quiz`. -/
structure ResultEntry where
  question : List Char
  user_answer : List Char
  correct_answer : List Char
  is_correct : Bool
deriving DecidableEq

/-- The dict returned by `evaluate_quiz`. -/
structure EvalReport where
  score : Nat
  total_questions : Nat
  percentage : ℚ
  grade : List Char
  results : List ResultEntry
deriving DecidableEq

/-- `QuizGenerator._calculate_grade`. -/
def calculate_grade (percentage : ℚ) : List Char :=
  if 90 ≤ percentage then "A".data
  else if 80 ≤ percentage then "B".data
  else if 70 ≤ percentage then "C".data
  else if 60 ≤ percentage then "D".data
  else "F".data

/-- `QuizGenerator.evaluate_quiz`; `user_answers i` models
`user_answers.get(str(i), "")` (a missing key yields the empty string). -/
def evaluate_quiz (questions : List Question)
    (user_answers : Nat → Option (List Char)) : EvalReport :=
  let entries := questions.enum.map (fun p =>
    let user := (user_answers p.1).getD []
    ResultEntry.mk (question_prompt p.2) user (question_reference p.2)
      (question_correct p.2 user))
  let score := (entries.filter (fun e => e.is_correct)).length
  let total := questions.length
  let percentage : ℚ := if 0 < total then ((score : ℚ) / (total : ℚ)) * 100 else 0
  EvalReport.mk score total percentage (calculate_grade percentage) entries

/-- C10: evaluating a quiz whose question list is empty never divides by
zero: score 0, total_questions 0, percentage 0, grade "F", empty results. -/
theorem evaluate_quiz_empty (user_answers : Nat → Option (List Char)) :
    evaluate_quiz [] user_answers = EvalReport.mk 0 0 0 "F".data [] := rfl

/-- C4: a quiz request whose top-10 retrieval yields zero documents returns
the no-content error outcome and never a quiz. -/
theorem generate_quiz_no_content (pick : Nat → List (List Char) → List Char)
    (shuf : Nat → List (List Char) → List (List Char))
    (pickStarter : Nat → List (List Char) → List Char)
    (shufQs : List Question → List Question)
    (topic : List Char) (num_questions : Nat) (quiz_type : List Char) :
    generate_quiz pick shuf pickStarter shufQs [] topic num_questions quiz_type =
      QuizOutcome.error "No content found for this topic".data ∧
    ∀ t k qs ty,
      generate_quiz pick shuf pickStarter shufQs [] topic num_questions quiz_type ≠
        QuizOutcome.quiz t k qs ty := by
  refine ⟨rfl, ?_⟩
  intro t k qs ty h
  simp [generate_quiz] at h

/-- C5: short-answer evaluation takes the reference words longer than 3
characters as the keyword set and marks the user answer correct iff the
user answer's word set contains at least 30% of that keyword set; an empty
keyword set marks every user answer correct. -/
theorem evaluate_short_answer_spec (user_answer sample_answer : List Char) :
    (evaluate_short_answer user_answer sample_answer = true ↔
      ((keyWords sample_answer).card : ℚ) * 0.3 ≤
        ((answerWordSet user_answer ∩ keyWords sample_answer).card : ℚ)) ∧
    (keyWords sample_answer = ∅ →
      evaluate_short_answer user_answer sample_answer = true) := by
  constructor
  · unfold evaluate_short_answer
    exact decide_eq_true_iff
  · intro h
    unfold evaluate_short_answer
    rw [h]
    simp

/-- Closed instance of `evaluate_short_answer_spec`: the reference
"a an to it" has no word longer than 3 characters, so the empty user
answer is marked correct. -/
theorem evaluate_short_answer_spec_witness :
    evaluate_short_answer [] "a an to it".data = true :=
  (evaluate_short_answer_spec [] "a an to it".data).2 (by decide)

/-- C3 (amended): the true/false question at index i is labeled "True"
exactly when i is even; at an odd index the statement text is the
lowercased sentence with the first matching substitution applied (matching
against the lowercased sentence), and a sentence matching no pair is kept
unchanged. -/
theorem generate_true_false_spec (content : List Char) (num_questions : Nat) :
    (∀ i, i < (generate_true_false content num_questions).length →
      (question_reference ((generate_true_false content num_questions).getD i
          (Question.tf [] [])) = "True".data ↔ i % 2 = 0) ∧
      (i % 2 ≠ 0 →
        (generate_true_false content num_questions).getD i (Question.tf [] []) =
          Question.tf ("True or False: ".data ++
            modify_sentence_for_false ((candidateSentences content).getD i []))
            "False".data)) ∧
    (∀ s, (∀ p ∈ modifications, containsSub p.1 (toLowerChars s) = false) →
      modify_sentence_for_false s = s) := by
  constructor
  · intro i hi
    rw [List.getD_eq_getElem _ _ hi]
    have hTF : ("False".data : List Char) ≠ "True".data := by decide
    unfold generate_true_false
    simp only [List.getElem_map, List.getElem_range]
    by_cases hpar : i % 2 = 0
    · simp [hpar, question_reference]
    · simp [hpar, question_reference, hTF]
  · intro s hnone
    unfold modify_sentence_for_false
    have hfind : modifications.find? (fun p => containsSub p.1 (toLowerChars s)) = none := by
      rw [List.find?_eq_none]
      intro p hp
      simp [hnone p hp]
    rw [hfind]

/-- The content used to exercise the true/false claims: two candidate
sentences, the second exercising the "can" substitution. -/
def tf_cex_content : List Char :=
  "Water can freeze when cold outside. Water can freeze when cold outside".data

/-- Closed instance of `generate_true_false_spec` at index 1 of a
two-sentence content. -/
theorem generate_true_false_spec_witness :
    question_reference ((generate_true_false tf_cex_content 2).getD 1
      (Question.tf [] [])) = "True".data ↔ 1 % 2 = 0 :=
  ((generate_true_false_spec tf_cex_content 2).1 1 (by decide)).1

/-- The substitution step exactly as claim C3 words it: the first matching
substitution applied to the sentence itself (not to its lowercased copy). -/
def claimed_negation (sentence : List Char) : List Char :=
  match modifications.find? (fun p => containsSub p.1 (toLowerChars sentence)) with
  | some p => replaceFirst sentence p.1 p.2
  | none => sentence

/-- C3 counterexample: for the sentence "Water can freeze when cold
outside" at odd index 1, the emitted statement is the lowercased
substituted sentence "water cannot freeze when cold outside", not the
claim's substituted sentence "Water cannot freeze when cold outside". -/
theorem generate_true_false_claim_counterexample :
    (generate_true_false tf_cex_content 2).getD 1 (Question.tf [] []) ≠
      Question.tf ("True or False: ".data ++
        claimed_negation ((candidateSentences tf_cex_content).getD 1 []))
        "False".data ∧
    claimed_negation ((candidateSentences tf_cex_content).getD 1 []) =
      "Water cannot freeze when cold outside".data := by
  constructor
  · decide
  · decide

/-- C9: every multiple-choice question emitted by the generator has exactly
the four option keys "A".."D" in order; the option stored under the
recorded correct letter is the capitalized key term blanked out of the
question text; and among the four letters the recorded one is the unique
answer the evaluator marks correct. -/
theorem generate_multiple_choice_spec
    (pick : Nat → List (List Char) → List Char)
    (shuf : Nat → List (List Char) → List (List Char))
    (hpick : ∀ i l, l ≠ [] → pick i l ∈ l)
    (hshuf : ∀ i l, (shuf i l).Perm l)
    (content : List Char) (num_questions : Nat) (q : Question)
    (hq : q ∈ generate_multiple_choice pick shuf content num_questions) :
    ∃ sentence key opts j,
      sentence ∈ candidateSentences content ∧
      key ∈ findCapWords sentence ∧
      q = Question.mc
        ("Fill in the blank: ".data ++ replaceAll sentence key "____".data)
        opts (letterOf j) ∧
      opts.map Prod.fst = [['A'], ['B'], ['C'], ['D']] ∧
      j < 4 ∧
      (opts.getD j ([], [])).2 = key ∧
      (∀ letter ∈ [[('A' : Char)], ['B'], ['C'], ['D']],
        (question_correct q letter = true ↔ letter = letterOf j)) := by
  have huniq : ∀ j, j < 4 → ∀ letter ∈ [[('A' : Char)], ['B'], ['C'], ['D']],
      (decide (toUpperChars letter = toUpperChars (letterOf j)) = true ↔
        letter = letterOf j) := by decide
  unfold generate_multiple_choice at hq
  obtain ⟨i, hir, hfi⟩ := List.mem_filterMap.mp hq
  have hi : i < min num_questions (candidateSentences content).length :=
    List.mem_range.mp hir
  dsimp only at hfi
  by_cases hw : findCapWords ((candidateSentences content).getD i []) = []
  · rw [if_pos hw] at hfi
    exact absurd hfi (by simp)
  · rw [if_neg hw] at hfi
    have hqeq := Option.some.inj hfi
    have hperm : shuf i (pick i (findCapWords ((candidateSentences content).getD i []))
        :: dummy_options) |>.Perm
        (pick i (findCapWords ((candidateSentences content).getD i []))
          :: dummy_options) := hshuf i _
    set sentence := (candidateSentences content).getD i [] with hsent
    set key := pick i (findCapWords sentence) with hkey
    set options := shuf i (key :: dummy_options) with hopts
    have hlen4 : options.length = 4 := by
      rw [hperm.length_eq]
      rfl
    have hmem : key ∈ options := hperm.mem_iff.mpr (List.mem_cons_self _ _)
    have hidx : pyIndex key options < options.length :=
      pyIndex_lt_length hmem
    have hj4 : pyIndex key options < 4 := hlen4 ▸ hidx
    refine ⟨sentence, key, options.enum.map (fun p => (letterOf p.1, p.2)),
      pyIndex key options, ?_, ?_, ?_, ?_, hj4, ?_, ?_⟩
    · have hi' : i < (candidateSentences content).length :=
        lt_of_lt_of_le hi (min_le_right _ _)
      rw [hsent, List.getD_eq_getElem _ _ hi']
      exact List.getElem_mem hi'
    · exact hpick i _ hw
    · exact hqeq.symm
    · rw [List.map_map]
      have hfn : (Prod.fst ∘ fun p : Nat × List Char => (letterOf p.1, p.2)) =
          letterOf ∘ Prod.fst := rfl
      rw [hfn, ← List.map_map, List.enum_map_fst, hlen4]
      decide
    · have hjlen : pyIndex key options <
          (options.enum.map (fun p : Nat × List Char => (letterOf p.1, p.2))).length := by
        simpa using hidx
      rw [List.getD_eq_getElem _ _ hjlen]
      simp only [List.getElem_map, List.getElem_enum]
      exact getElem_pyIndex hmem hidx
    · intro letter hl
      rw [← hqeq]
      simp only [question_correct]
      exact huniq (pyIndex key options) hj4 letter hl

/-- The content used for the multiple-choice witness: one candidate
sentence with the capitalized terms "Paris" and "France". -/
def mc_wit_content : List Char := "Paris is the capital city of France".data

/-- Closed instance of `generate_multiple_choice_spec`: head-choice pick,
identity shuffle, one question over a one-sentence content. -/
theorem generate_multiple_choice_spec_witness :
    ∃ sentence key opts j,
      sentence ∈ candidateSentences mc_wit_content ∧
      key ∈ findCapWords sentence ∧
      Question.mc "Fill in the blank: ____ is the capital city of France".data
          [(['A'], "Paris".data), (['B'], "Option A".data), (['C'], "Option B".data),
            (['D'], "Option C".data)] ['A'] =
        Question.mc
          ("Fill in the blank: ".data ++ replaceAll sentence key "____".data)
          opts (letterOf j) ∧
      opts.map Prod.fst = [['A'], ['B'], ['C'], ['D']] ∧
      j < 4 ∧
      (opts.getD j ([], [])).2 = key ∧
      (∀ letter ∈ [[('A' : Char)], ['B'], ['C'], ['D']],
        (question_correct (Question.mc
            "Fill in the blank: ____ is the capital city of France".data
            [(['A'], "Paris".data), (['B'], "Option A".data), (['C'], "Option B".data),
              (['D'], "Option C".data)] ['A']) letter = true ↔
          letter = letterOf j)) :=
  generate_multiple_choice_spec (fun _ l => l.headD []) (fun _ l => l)
    (by
      intro i l hl
      cases l with
      | nil => exact absurd rfl hl
      | cons a t => exact List.mem_cons_self a t)
    (fun _ l => List.Perm.refl l)
    mc_wit_content 1
    (Question.mc "Fill in the blank: ____ is the capital city of France".data
      [(['A'], "Paris".data), (['B'], "Option A".data), (['C'], "Option B".data),
        (['D'], "Option C".data)] ['A'])
    (by decide)

/-! ### RAGEngine (src/rag_engine.py) -/

/-- One search result of the external vector store:
`results['documents'][0]` and `results['metadatas'][0]`. -/
structure SearchResults (μ : Type) where
  documents : List (List Char)
  metadatas : List μ

/-- The engine's state: the external vector store and embedding manager
are opaque values, the query history is the in-memory list. -/
structure RAGEngineState (V E : Type) where
  vector_store : V
  embedding_manager : E
  query_history : List (List Char)

/-- `Config.DIFFICULTY_LEVELS` (config.py): name, min_score, max_score. -/
def difficulty_levels : List (List Char × ℚ × ℚ) :=
  [("beginner".data, 0, 0.3), ("intermediate".data, 0.3, 0.7),
   ("advanced".data, 0.7, 1)]

/-- `RAGEngine._matches_difficulty_level`; an unknown level falls back to
the band [0, 1]. -/
def matches_difficulty_level (doc_difficulty : ℚ) (target_level : List Char) : Bool :=
  let r := ((difficulty_levels.find? (fun p => p.1 = target_level)).map Prod.snd).getD (0, 1)
  decide (r.1 ≤ doc_difficulty ∧ doc_difficulty ≤ r.2)

/-- `RAGEngine._filter_by_difficulty`; `assess` stands for the difficulty
assessor applied to one document (sentence tokenization included). -/
def filter_by_difficulty {μ : Type} (assess : List Char → ℚ)
    (sr : SearchResults μ) (level : List Char) : SearchResults μ :=
  let pairs := (sr.documents.zip sr.metadatas).filter
    (fun p => matches_difficulty_level (assess p.1) level)
  ⟨pairs.map Prod.fst, pairs.map Prod.snd⟩

/-- `RAGEngine._generate_response`. -/
def generate_response {μ : Type} (_question : List Char) (sr : SearchResults μ) : List Char :=
  if sr.documents = [] then
    "I couldn't find relevant information in your study materials. Try uploading more documents or rephrasing your question.".data
  else
    "Based on your study materials:\n\n".data ++
      (joinSp (sr.documents.take 3)).take 500 ++ "...".data

/-- The beginner indicator words of `_assess_understanding_level`. -/
def beginner_indicators : List (List Char) :=
  ["what".data, "is".data, "define".data, "explain".data, "basic".data,
   "simple".data]

/-- The advanced indicator words of `_assess_understanding_level`. -/
def advanced_indicators : List (List Char) :=
  ["analyze".data, "compare".data, "evaluate".data, "synthesize".data,
   "critique".data]

/-- `RAGEngine._assess_understanding_level`. -/
def assess_understanding_level (question : List Char) : List Char :=
  let question_words := splitWS (toLowerChars question)
  let beginner_count := (beginner_indicators.filter (fun w => w ∈ question_words)).length
  let advanced_count := (advanced_indicators.filter (fun w => w ∈ question_words)).length
  if beginner_count < advanced_count then "advanced".data
  else if 0 < beginner_count then "beginner".data
  else "intermediate".data

/-- `RAGEngine._suggest_actions`. -/
def suggest_actions (_question understanding_level : List Char) : List (List Char) :=
  if understanding_level = "beginner".data then
    ["Try asking for a more detailed explanation".data,
     "Request examples to illustrate the concept".data]
  else if understanding_level = "intermediate".data then
    ["Ask for related concepts to explore".data,
     "Request practice questions on this topic".data]
  else
    ["Ask for critical analysis of this topic".data,
     "Request connections to other advanced concepts".data]

/-- The dict returned by `RAGEngine.query`. -/
structure QueryResponse (μ : Type) where
  question : List Char
  response : List Char
  sources : SearchResults μ
  understanding_level : List Char
  suggested_actions : List (List Char)

/-- `RAGEngine.query`; `search` models `vector_store.search` (`none`
stands for a raised exception) and `assess` the difficulty assessor. The
question is appended to the history first, before the search runs. -/
def query {V E μ : Type} (search : List Char → Nat → Option (SearchResults μ))
    (assess : List Char → ℚ) (st : RAGEngineState V E) (question : List Char)
    (n_results : Nat) (difficulty_level : Option (List Char)) :
    RAGEngineState V E × Option (QueryResponse μ) :=
  let st1 : RAGEngineState V E :=
    { st with query_history := st.query_history ++ [question] }
  match search question n_results with
  | none => (st1, none)
  | some sr =>
    let sr2 := match difficulty_level with
      | some lvl => filter_by_difficulty assess sr lvl
      | none => sr
    let ul := assess_understanding_level question
    (st1, some ⟨question, generate_response question sr2, sr2, ul,
      suggest_actions question ul⟩)

/-- C7: `query` appends the question to the history exactly once, before
retrieval — the append happens even when the search fails — and modifies
no other engine state, preserving all existing history entries. -/
theorem query_spec {V E μ : Type} (search : List Char → Nat → Option (SearchResults μ))
    (assess : List Char → ℚ) (st : RAGEngineState V E) (question : List Char)
    (n_results : Nat) (difficulty_level : Option (List Char)) :
    ((query search assess st question n_results difficulty_level).1.query_history =
      st.query_history ++ [question]) ∧
    ((query search assess st question n_results difficulty_level).1.vector_store =
      st.vector_store) ∧
    ((query search assess st question n_results difficulty_level).1.embedding_manager =
      st.embedding_manager) ∧
    (search question n_results = none →
      (query search assess st question n_results difficulty_level).2 = none) := by
  cases hs : search question n_results <;> simp [query, hs]

/-- `RAGEngine._create_simplified_explanation`. -/
def create_simplified_explanation (_question context : List Char) : List Char :=
  let sentences := splitOnChar '.' context
  let simple_sentences :=
    ((sentences.take 3).filter (fun s => (splitWS s).length < 20)).map stripChars
  if simple_sentences ≠ [] then
    "Here's a simple explanation:\n\n".data ++
      List.intercalate ". ".data simple_sentences ++ ".".data
  else
    "Let me explain this in simple terms:\n\n".data ++ context.take 200 ++ "...".data

/-- `RAGEngine.explain_like_im_five` (the response text of its dict);
`docs` is `search_results['documents'][0]` of the top-2 search. -/
def explain_like_im_five (docs : List (List Char)) (question : List Char) : List Char :=
  if docs = [] then
    "I couldn't find information about that topic. Try uploading more study materials!".data
  else
    create_simplified_explanation question (joinSp docs)

/-- C8 (amended): with no retrieved documents the fixed not-found message
is returned; otherwise, among the first 3 sentences of the concatenated
context, those with word count < 20 are kept (stripped, joined with ". ",
fixed preface and trailing period), and when none of the first 3 qualifies
the fallback is the first 200 characters of the context with a fixed
preface and trailing ellipsis. -/
theorem explain_like_im_five_spec (docs : List (List Char)) (question : List Char) :
    (docs = [] → explain_like_im_five docs question =
      "I couldn't find information about that topic. Try uploading more study materials!".data) ∧
    (docs ≠ [] →
      explain_like_im_five docs question =
        (let simple := (((splitOnChar '.' (joinSp docs)).take 3).filter
            (fun s => (splitWS s).length < 20)).map stripChars
         if simple ≠ [] then
           "Here's a simple explanation:\n\n".data ++
             List.intercalate ". ".data simple ++ ".".data
         else
           "Let me explain this in simple terms:\n\n".data ++
             (joinSp docs).take 200 ++ "...".data)) := by
  constructor
  · intro h
    simp [explain_like_im_five, h]
  · intro h
    simp only [explain_like_im_five, if_neg h, create_simplified_explanation]

/-- Closed instance of `explain_like_im_five_spec`: the empty retrieval
yields the fixed not-found message. -/
theorem explain_like_im_five_spec_witness :
    explain_like_im_five [] [] =
      "I couldn't find information about that topic. Try uploading more study materials!".data :=
  (explain_like_im_five_spec [] []).1 rfl

/-- The sentence selection exactly as claim C8 words it: the first 3
sentences of the whole context whose word count is below 20. -/
def claimed_simple_sentences (context : List Char) : List (List Char) :=
  (((splitOnChar '.' context).filter (fun s => (splitWS s).length < 20)).take 3).map
    stripChars

/-- The document used for the explain-simple counterexample: sentence 2 has
20 words, sentences 1, 3 and 4 are short. -/
def eli5_cex_doc : List Char :=
  "one two. a b c d e f g h i j k l m n o p q r s t. three four. five six".data

/-- C8 counterexample: the fourth sentence "five six" is among the first 3
short sentences of the context, yet the code keeps only the short ones
among the first 3 sentences, so the response differs from the claim's
selection. -/
theorem explain_like_im_five_claim_counterexample :
    explain_like_im_five [eli5_cex_doc] [] ≠
      "Here's a simple explanation:\n\n".data ++
        List.intercalate ". ".data (claimed_simple_sentences (joinSp [eli5_cex_doc])) ++
        ".".data ∧
    (claimed_simple_sentences (joinSp [eli5_cex_doc])).length = 3 := by
  constructor
  · decide
  · decide

/-- `RAGEngine._extract_common_topics`, one word at a time: bump the count
of `w` when present, append `(w, 1)` otherwise (Python dict insertion
order). -/
def bump_topic (counts : List (List Char × Nat)) (w : List Char) : List (List Char × Nat) :=
  if counts.any (fun p => p.1 = w) then
    counts.map (fun p => if p.1 = w then (p.1, p.2 + 1) else p)
  else counts ++ [(w, 1)]

/-- `RAGEngine._extract_common_topics`: count the occurrences of words
longer than 3 characters over all history entries. -/
def extract_common_topics (queries : List (List Char)) : List (List Char × Nat) :=
  queries.foldl (fun acc q =>
    ((wordRuns (toLowerChars q)).filter (fun w => 3 < w.length)).foldl bump_topic acc) []

/-- The f-string of `_identify_weak_areas`. -/
def weak_area_message (p : List Char × Nat) : List Char :=
  "You've asked about '".data ++ p.1 ++ "' ".data ++ (toString p.2).data ++
    " times - consider reviewing this topic".data

/-- `RAGEngine._identify_weak_areas`: sort by count descending (Python's
stable sort), keep the top 5, keep counts ≥ 3, message each; a fixed
message when none qualifies. -/
def identify_weak_areas (common_topics : List (List Char × Nat)) : List (List Char) :=
  let sorted_topics := common_topics.mergeSort (fun a b => decide (b.2 ≤ a.2))
  let weak_areas := ((sorted_topics.take 5).filter (fun p => 3 ≤ p.2)).map weak_area_message
  if weak_areas ≠ [] then weak_areas
  else ["No specific weak areas identified yet".data]

/-- `RAGEngine.find_knowledge_gaps`. -/
def find_knowledge_gaps (query_history : List (List Char)) : List (List Char) :=
  if query_history.length < 5 then
    ["Upload more documents and ask more questions to identify knowledge gaps!".data]
  else identify_weak_areas (extract_common_topics query_history)

/-- C6: with fewer than 5 history entries `find_knowledge_gaps` returns the
single fixed prompting message; otherwise it ranks the counted topics by
frequency descending and emits one message per topic among the top 5 whose
count is at least 3, with a fixed no-weak-areas message when none
qualifies. -/
theorem find_knowledge_gaps_spec (query_history : List (List Char)) :
    (query_history.length < 5 → find_knowledge_gaps query_history =
      ["Upload more documents and ask more questions to identify knowledge gaps!".data]) ∧
    (5 ≤ query_history.length → ∃ sorted_topics,
      sorted_topics.Perm (extract_common_topics query_history) ∧
      List.Pairwise (fun a b : List Char × Nat => b.2 ≤ a.2) sorted_topics ∧
      find_knowledge_gaps query_history =
        (let weak := ((sorted_topics.take 5).filter (fun p => 3 ≤ p.2)).map weak_area_message
         if weak ≠ [] then weak
         else ["No specific weak areas identified yet".data])) := by
  constructor
  · intro h
    simp [find_knowledge_gaps, h]
  · intro h
    refine ⟨(extract_common_topics query_history).mergeSort (fun a b => decide (b.2 ≤ a.2)),
      List.mergeSort_perm _ _, ?_, ?_⟩
    · have hp := @List.sorted_mergeSort (List Char × Nat)
        (fun a b => decide (b.2 ≤ a.2))
        (by
          intro a b c hab hbc
          have hab' : b.2 ≤ a.2 := by simpa using hab
          have hbc' : c.2 ≤ b.2 := by simpa using hbc
          simpa using le_trans hbc' hab')
        (by
          intro a b
          simpa using Nat.le_total b.2 a.2)
        (extract_common_topics query_history)
      exact hp.imp (fun hab => by simpa using hab)
    · simp [find_knowledge_gaps, identify_weak_areas, Nat.not_lt.mpr h]

/-- Closed instance of `find_knowledge_gaps_spec`: a history of 4 entries
returns the fixed prompting message regardless of content. -/
theorem find_knowledge_gaps_spec_witness :
    find_knowledge_gaps ["a".data, "b".data, "c".data, "d".data] =
      ["Upload more documents and ask more questions to identify knowledge gaps!".data] :=
  (find_knowledge_gaps_spec ["a".data, "b".data, "c".data, "d".data]).1 (by decide)

end StudyBuddy
